import Mathlib

/-!
Shallow embedding of the integration-test harness in `src/test-integration.ts`
(nano-banana MCP server repository).

The harness runs five checks in sequence, each appending `TestResult` records
to a shared log, and a reporter derives the process exit code from the log.
Filesystem and subprocess behaviour is modelled by explicit oracle inputs
(`FsOp`, `BuildEnv`, `Project`): each check is embedded as a pure function
from its oracle to the list of results it appends.
-/

/-- The `TestResult` interface: `{name, passed, message}`. -/
structure TestResult where
  name : String
  passed : Bool
  message : String
deriving DecidableEq, Repr

/-- Outcome of a single filesystem operation as observed by the harness:
either it succeeds returning a value, or it raises a fault whose text ends up
in the catch-block's `${error}` interpolation. -/
inductive FsOp (α : Type) where
  | ok (val : α)
  | fault (err : String)
deriving DecidableEq, Repr

/-- JavaScript `hay.includes(needle)`: substring containment. -/
def strIncludes (hay needle : String) : Bool :=
  decide (needle.data <:+: hay.data)

/-! ## Filesystem Probe (`testProjectStructure`, lines 39-57) -/

/-- The `requiredFiles` list of `testProjectStructure`. -/
def requiredFiles : List String :=
  ["package.json", "tsconfig.json", "src/index.ts", "README.md",
   ".gitignore", ".eslintrc.json"]

/-- One loop iteration of `testProjectStructure`: `fs.access` succeeding
(modelled by `present file = true`) adds a passing result, any access fault
(absent file, permission denied) lands in the catch and adds a failing one. -/
def structResult (present : String → Bool) (file : String) : TestResult :=
  if present file then
    ⟨"Project structure - " ++ file, true, "✅ " ++ file ++ " exists"⟩
  else
    ⟨"Project structure - " ++ file, false, "❌ " ++ file ++ " missing"⟩

/-- `testProjectStructure`: one result per required file. -/
def testProjectStructure (present : String → Bool) : List TestResult :=
  requiredFiles.map (structResult present)

/-! ## Manifest Validator (`testDependencies`, lines 59-90) -/

/-- The parsed `package.json` as the check accesses it: the `dependencies`
key may be absent (`none`), otherwise it maps package names to version
strings (a parsed JS object, keys unique). -/
structure Manifest where
  dependencies : Option (List (String × String))
deriving DecidableEq, Repr

/-- The `requiredDeps` list of `testDependencies`. -/
def requiredDeps : List String :=
  ["@modelcontextprotocol/sdk", "@google/generative-ai", "dotenv", "zod"]

/-- Oracle for `testDependencies`: reading/parsing `package.json` either
faults (file unreadable or `JSON.parse` throws) or yields a `Manifest`,
together with whether `node_modules` is accessible. -/
inductive DepsInput where
  | fault (err : String)
  | ok (manifest : Manifest) (nodeModulesExists : Bool)
deriving DecidableEq, Repr

/-- One iteration of the `requiredDeps` loop:
`if (packageJson.dependencies[dep])` — JS truthiness on the version string
(an empty string is falsy). Only reachable when `dependencies` is present. -/
def depResult (deps : List (String × String)) (dep : String) : TestResult :=
  match deps.lookup dep with
  | some v =>
    if v = "" then ⟨"Dependencies - " ++ dep, false, "❌ " ++ dep ++ " missing"⟩
    else ⟨"Dependencies - " ++ dep, true, "✅ " ++ dep ++ " found"⟩
  | none => ⟨"Dependencies - " ++ dep, false, "❌ " ++ dep ++ " missing"⟩

/-- The `node_modules` probe at the end of `testDependencies`. -/
def nodeModulesResult (nodeModulesExists : Bool) : TestResult :=
  if nodeModulesExists then
    ⟨"Dependencies - node_modules", true, "✅ Dependencies installed"⟩
  else
    ⟨"Dependencies - node_modules", false, "❌ Run npm install first"⟩

/-- `testDependencies`. When the manifest lacks the `dependencies` key,
`packageJson.dependencies[dep]` throws `TypeError` on the very first loop
iteration (before any `addResult`), so the outer catch adds the single
aggregate failing result; a read or parse fault reaches the same catch. -/
def testDependencies (input : DepsInput) : List TestResult :=
  match input with
  | .fault e =>
    [⟨"Dependencies check", false, "❌ Failed to check dependencies: " ++ e⟩]
  | .ok m nodeModulesExists =>
    match m.dependencies with
    | none =>
      [⟨"Dependencies check", false,
        "❌ Failed to check dependencies: TypeError: Cannot read properties of undefined"⟩]
    | some deps =>
      requiredDeps.map (depResult deps) ++ [nodeModulesResult nodeModulesExists]

/-! ## Build Runner (`testBuildProcess`, lines 92-125) -/

/-- Oracle for the build subprocess: either `spawn` fails (the child emits an
`error` event) or the child closes with an exit code, having accumulated
`stderrData`, and the subsequent `fs.access('dist')` probe succeeds iff
`distExists`. -/
structure BuildEnv where
  spawnError : Option String
  exitCode : Int
  stderrData : String
  distExists : Bool
deriving DecidableEq, Repr

/-- `testBuildProcess`: returns the results it appends, paired with a flag
that is `true` when a fault escapes the check unhandled. The source attaches
handlers only for `stdout`/`stderr` `data` and for `close`; it registers no
listener for the child's `error` event and wraps nothing in try/catch, so a
spawn failure is an unhandled `error` emission that crashes the process
before any `addResult` runs (`addResult` is called only inside the `close`
handler). On `close`: exit code 0 probes for `dist` (pass if present,
distinct failing message if not); non-zero exit fails with the captured
stderr interpolated. -/
def testBuildProcess (env : BuildEnv) : List TestResult × Bool :=
  match env.spawnError with
  | some _ => ([], true)
  | none =>
    if env.exitCode = 0 then
      if env.distExists then
        ([⟨"Build process", true, "✅ Build successful"⟩], false)
      else
        ([⟨"Build process", false, "❌ Dist directory not created"⟩], false)
    else
      ([⟨"Build process", false, "❌ Build failed: " ++ env.stderrData⟩], false)

/-! ## JSON serialization for the Config Round-Trip Check

`testConfigurationHandling` writes `JSON.stringify(testConfig, null, 2)` for
`testConfig = {geminiApiKey: <field>}` and reads it back through
`JSON.parse(...).geminiApiKey`. We embed the string-escaping algorithm of
`JSON.stringify` and a parser for the single-string-field object documents
this check manipulates (the only JSON shape the check ever parses). -/

/-- Lowercase hex digit, as emitted by `JSON.stringify` in `\u00XX` escapes. -/
def hexDigit (n : Nat) : Char :=
  if n < 10 then Char.ofNat (48 + n) else Char.ofNat (87 + n)

/-- Value of a hex digit accepted by the JSON `\uXXXX` escape. -/
def hexVal (c : Char) : Option Nat :=
  if '0' ≤ c ∧ c ≤ '9' then some (c.toNat - 48)
  else if 'a' ≤ c ∧ c ≤ 'f' then some (c.toNat - 87)
  else if 'A' ≤ c ∧ c ≤ 'F' then some (c.toNat - 55)
  else none

/-- `JSON.stringify` escaping of one character inside a string literal:
the two structural characters and five control characters with short escapes,
any other control character as `\u00XX`, everything else verbatim. -/
def escapeChar (c : Char) : List Char :=
  if c = '"' then ['\\', '"']
  else if c = '\\' then ['\\', '\\']
  else if c = '\x08' then ['\\', 'b']
  else if c = '\x0c' then ['\\', 'f']
  else if c = '\n' then ['\\', 'n']
  else if c = '\r' then ['\\', 'r']
  else if c = '\t' then ['\\', 't']
  else if c.toNat < 32 then
    ['\\', 'u', '0', '0', hexDigit (c.toNat / 16), hexDigit (c.toNat % 16)]
  else [c]

/-- `JSON.stringify` escaping of a whole string body. -/
def escapeString (s : List Char) : List Char :=
  s.foldr (fun c acc => escapeChar c ++ acc) []

/-- Decode of one short escape character: `some c` when `e` is a valid
single-character escape standing for `c`. -/
def shortEscape (e : Char) : Option Char :=
  if e = '"' then some '"'
  else if e = '\\' then some '\\'
  else if e = '/' then some '/'
  else if e = 'b' then some '\x08'
  else if e = 'f' then some '\x0c'
  else if e = 'n' then some '\n'
  else if e = 'r' then some '\r'
  else if e = 't' then some '\t'
  else none

/-- JSON string-literal body parser: consumes characters up to and including
the closing quote, decoding escapes; returns the decoded body and the rest of
the input. Control characters must be escaped; a malformed escape fails. -/
def parseStringBody : List Char → Option (List Char × List Char)
  | [] => none
  | c :: rest =>
    if c = '"' then some ([], rest)
    else if c = '\\' then
      match rest with
      | [] => none
      | 'u' :: h1 :: h2 :: h3 :: h4 :: rest3 =>
        match hexVal h1, hexVal h2, hexVal h3, hexVal h4 with
        | some a, some b, some c3, some d =>
          (parseStringBody rest3).map
            (fun p => (Char.ofNat (((a * 16 + b) * 16 + c3) * 16 + d) :: p.1, p.2))
        | _, _, _, _ => none
      | e :: rest2 =>
        match shortEscape e with
        | some dec => (parseStringBody rest2).map (fun p => (dec :: p.1, p.2))
        | none => none
    else if 32 ≤ c.toNat then (parseStringBody rest).map (fun p => (c :: p.1, p.2))
    else none

/-- Whitespace skipping of the JSON grammar. -/
def skipWs : List Char → List Char
  | [] => []
  | c :: rest =>
    if c = ' ' ∨ c = '\n' ∨ c = '\t' ∨ c = '\r' then skipWs rest else c :: rest

/-- `JSON.stringify({geminiApiKey: field}, null, 2)`: the exact document the
check writes, as a character list around the escaped field value. -/
def serializeConfig (field : String) : String :=
  String.mk ("\x7b\n  \"geminiApiKey\": \"".data
    ++ escapeString field.data ++ "\"\n\x7d".data)

/-- Continuation of `parseConfig` after the object's key has been parsed:
expects a colon, a string value, and the closing brace, then yields the
field value when the key is `geminiApiKey` (an absent key reads as JS
`undefined`, i.e. `none`). -/
def parseObjectTail (r3 key : List Char) : Option (Option String) :=
  match skipWs r3 with
  | ':' :: r4 =>
    match skipWs r4 with
    | '"' :: r5 =>
      match parseStringBody r5 with
      | some (val, r6) =>
        match skipWs r6 with
        | '}' :: r7 =>
          if skipWs r7 = [] then
            if key = "geminiApiKey".data then some (some (String.mk val))
            else some none
          else none
        | _ => none
      | none => none
    | _ => none
  | _ => none

/-- `JSON.parse(data).geminiApiKey` for the single-string-field object
documents this check manipulates. Outer `none` models `JSON.parse` throwing
`SyntaxError`; `some none` models a well-formed object whose field accessed
as `geminiApiKey` is `undefined` (key absent); `some (some v)` yields the
field value. -/
def parseConfig (s : String) : Option (Option String) :=
  match skipWs s.data with
  | '{' :: r1 =>
    match skipWs r1 with
    | '"' :: r2 =>
      match parseStringBody r2 with
      | some (key, r3) => parseObjectTail r3 key
      | none => none
    | _ => none
  | _ => none

/-! ## Config Round-Trip Check (`testConfigurationHandling`, lines 127-157) -/

/-- Oracle for the three filesystem operations of the config check. A read
that succeeds yields the bytes the file held (for the unperturbed round trip
this is exactly what the write wrote). -/
structure ConfigFs where
  writeOp : FsOp Unit
  readOp : FsOp String
  unlinkOp : FsOp Unit
deriving DecidableEq, Repr

/-- Result of the config check: the results it appends, and whether the
synthetic config file still exists on disk when the check returns. -/
structure ConfigOutcome where
  results : List TestResult
  fileExists : Bool
deriving DecidableEq, Repr

/-- The unconditional `Configuration - Write` success result (line 138). -/
def configWriteResult : TestResult :=
  ⟨"Configuration - Write", true, "✅ Config file written"⟩

/-- The `Configuration - Read` result of the field comparison (144-148). -/
def configReadResult (fieldVal : Option String) (field : String) : TestResult :=
  if fieldVal = some field then
    ⟨"Configuration - Read", true, "✅ Config file read correctly"⟩
  else
    ⟨"Configuration - Read", false, "❌ Config data mismatch"⟩

/-- The unconditional `Configuration - Cleanup` success result (line 152). -/
def configCleanupResult : TestResult :=
  ⟨"Configuration - Cleanup", true, "✅ Test config cleaned up"⟩

/-- The aggregate failing result of the catch block (line 155). -/
def configAggregate (e : String) : TestResult :=
  ⟨"Configuration handling", false, "❌ Configuration test failed: " ++ e⟩

/-- `testConfigurationHandling`, generalized over the written field value
(the source fixes it to `test-api-key-for-integration-testing`). A fault in
any step jumps to the catch, which appends the aggregate failing result
after whatever sub-results were already appended; the file exists afterwards
iff it was written and `fs.unlink` did not run or faulted. -/
def testConfigurationHandling (field : String) (fs : ConfigFs) : ConfigOutcome :=
  match fs.writeOp with
  | .fault e => ⟨[configAggregate e], false⟩
  | .ok _ =>
    match fs.readOp with
    | .fault e => ⟨[configWriteResult, configAggregate e], true⟩
    | .ok data =>
      match parseConfig data with
      | none =>
        ⟨[configWriteResult,
          configAggregate "SyntaxError: Unexpected token in JSON"], true⟩
      | some fieldVal =>
        match fs.unlinkOp with
        | .fault e =>
          ⟨[configWriteResult, configReadResult fieldVal field, configAggregate e], true⟩
        | .ok _ =>
          ⟨[configWriteResult, configReadResult fieldVal field, configCleanupResult],
           false⟩

/-! ## Static Schema Check (`testToolSchema`, lines 159-199) -/

/-- The `requiredElements` list of `testToolSchema`. -/
def requiredElements : List String :=
  ["configure_gemini_token", "generate_image", "edit_image",
   "get_configuration_status", "GoogleGenerativeAI", "gemini-3-pro-image-preview"]

/-- One iteration of the `requiredElements` loop: substring containment. -/
def schemaElementResult (src el : String) : TestResult :=
  if strIncludes src el then
    ⟨"Tool Schema - " ++ el, true, "✅ " ++ el ++ " found"⟩
  else
    ⟨"Tool Schema - " ++ el, false, "❌ " ++ el ++ " missing"⟩

/-- `hasMimeTypeLogic` (lines 189-191): three substring alternatives. -/
def hasMimeTypeLogic (src : String) : Bool :=
  strIncludes src "getMimeType" || strIncludes src "image/jpeg" ||
    strIncludes src "image/png"

/-- The single MIME-type-handling-evidence result (lines 193-194). -/
def mimeResult (src : String) : TestResult :=
  ⟨"MIME type handling", hasMimeTypeLogic src,
   if hasMimeTypeLogic src then "✅ MIME type logic found"
   else "❌ MIME type logic missing"⟩

/-- `testToolSchema`: a read fault collapses to the aggregate; otherwise one
result per required element followed by the MIME-evidence result. -/
def testToolSchema (readOp : FsOp String) : List TestResult :=
  match readOp with
  | .fault e =>
    [⟨"Tool Schema validation", false, "❌ Schema test failed: " ++ e⟩]
  | .ok src =>
    requiredElements.map (schemaElementResult src) ++ [mimeResult src]

/-! ## Project state, orchestrator and Reporter -/

/-- The project as the harness observes it: which paths `fs.access`
reaches, the parse outcome of `package.json` when readable (`none` when
unparseable), whether `node_modules` exists, and the text of `src/index.ts`
when readable. -/
structure Project where
  present : String → Bool
  manifest : Option Manifest
  nodeModules : Bool
  indexSource : String

/-- Removing one file from the project (the perturbation of §8). -/
def removeFile (p : Project) (f : String) : Project :=
  { p with present := fun g => if g = f then false else p.present g }

/-- The input `testDependencies` sees, derived from the project: an absent
`package.json` makes the read fault, an unparseable one makes the parse
fault. -/
def depsInputOf (p : Project) : DepsInput :=
  if p.present "package.json" then
    match p.manifest with
    | some m => .ok m p.nodeModules
    | none => .fault "SyntaxError: Unexpected token in JSON"
  else .fault "Error: ENOENT: no such file or directory"

/-- The read `testToolSchema` performs, derived from the project. -/
def schemaInputOf (p : Project) : FsOp String :=
  if p.present "src/index.ts" then .ok p.indexSource
  else .fault "Error: ENOENT: no such file or directory"

/-- A fully healthy project: every required file present, a complete
manifest, installed dependencies, and a source text containing every
required identifier and all MIME-evidence tokens. -/
def goodProject : Project where
  present := fun f => requiredFiles.contains f
  manifest := some ⟨some [("@modelcontextprotocol/sdk", "1.6.0"),
    ("@google/generative-ai", "0.21.0"), ("dotenv", "16.0.0"), ("zod", "3.23.0")]⟩
  nodeModules := true
  indexSource := String.intercalate " " (requiredElements
    ++ ["getMimeType", "image/jpeg", "image/png"])

/-- The complete Result Log of one harness run, in check order
(structure, dependencies, build, config, schema), as assembled by
`runAllTests`. The build and config checks take no project input. -/
def runAllResults (p : Project) (benv : BuildEnv) (field : String)
    (cfs : ConfigFs) : List TestResult :=
  testProjectStructure p.present ++ testDependencies (depsInputOf p)
    ++ (testBuildProcess benv).1
    ++ (testConfigurationHandling field cfs).results
    ++ testToolSchema (schemaInputOf p)

/-- `printResults` (lines 205-230): counts passing results; when
`passed == total` the function returns and the process later exits 0
implicitly, otherwise it calls `process.exit(1)`. -/
def reporterExitCode (results : List TestResult) : Nat :=
  if (results.filter (fun r => r.passed)).length = results.length then 0 else 1

/-- `runAllTests` (lines 22-37): a fault escaping to the orchestrator's own
catch exits 1; otherwise the Reporter decides. The checks themselves only
append results (`addResult`), never exit. -/
def runExitCode (topLevelFault : Bool) (results : List TestResult) : Nat :=
  if topLevelFault then 1 else reporterExitCode results

/-! ## Helper lemmas: the JSON string round trip -/

theorem hexVal_hexDigit (n : Nat) (h : n < 16) : hexVal (hexDigit n) = some n := by
  interval_cases n <;> decide

/-- Parsing undoes `JSON.stringify` escaping: the string-literal parser,
run on an escaped body followed by the closing quote, recovers exactly the
original characters. -/
theorem parseStringBody_escape (s rest : List Char) :
    parseStringBody (escapeString s ++ '"' :: rest) = some (s, rest) := by
  induction s with
  | nil => unfold parseStringBody escapeString; simp
  | cons c s ih =>
    have hs : escapeString (c :: s) ++ '"' :: rest
        = escapeChar c ++ (escapeString s ++ '"' :: rest) := by
      simp [escapeString, List.append_assoc]
    rw [hs]
    by_cases h1 : c = '"'
    · subst h1; simp [escapeChar, parseStringBody, shortEscape, ih]
    by_cases h2 : c = '\\'
    · subst h2; simp [escapeChar, parseStringBody, shortEscape, ih]
    by_cases h3 : c = '\x08'
    · subst h3; simp [escapeChar, parseStringBody, shortEscape, ih]
    by_cases h4 : c = '\x0c'
    · subst h4; simp [escapeChar, parseStringBody, shortEscape, ih]
    by_cases h5 : c = '\n'
    · subst h5; simp [escapeChar, parseStringBody, shortEscape, ih]
    by_cases h6 : c = '\r'
    · subst h6; simp [escapeChar, parseStringBody, shortEscape, ih]
    by_cases h7 : c = '\t'
    · subst h7; simp [escapeChar, parseStringBody, shortEscape, ih]
    by_cases h8 : c.toNat < 32
    · have hd1 : c.toNat / 16 < 16 := by omega
      have hd2 : c.toNat % 16 < 16 := Nat.mod_lt _ (by omega)
      have h0 : hexVal '0' = some 0 := by decide
      simp [escapeChar, h1, h2, h3, h4, h5, h6, h7, h8, parseStringBody,
        hexVal_hexDigit, hd1, hd2, ih, h0]
      have harith : c.toNat / 16 * 16 + c.toNat % 16 = c.toNat := by omega
      rw [harith, Char.ofNat_toNat]
    · have hle : 32 ≤ c.toNat := by omega
      have hec : escapeChar c = [c] := by
        simp [escapeChar, h1, h2, h3, h4, h5, h6, h7, h8]
      rw [hec, List.singleton_append, parseStringBody.eq_def]
      simp only []
      rw [if_neg h1, if_neg h2, if_pos hle, ih]
      rfl

/-- The serialize/parse round trip of the config document is the identity
on the credential field, for every field value. -/
theorem parseConfig_serializeConfig (X : String) :
    parseConfig (serializeConfig X) = some (some X) := by
  have hstep : parseConfig (serializeConfig X)
      = parseObjectTail
          (':' :: ' ' :: '"' :: (escapeString X.data ++ '"' :: '\n' :: '}' :: []))
          "geminiApiKey".data := rfl
  rw [hstep]
  have hb : parseObjectTail
      (':' :: ' ' :: '"' :: (escapeString X.data ++ '"' :: '\n' :: '}' :: []))
      "geminiApiKey".data
      = match parseStringBody (escapeString X.data ++ '"' :: '\n' :: '}' :: []) with
        | some (val, r6) =>
          match skipWs r6 with
          | '}' :: r7 =>
            if skipWs r7 = [] then
              if "geminiApiKey".data = "geminiApiKey".data then
                some (some (String.mk val))
              else some none
            else none
          | _ => none
        | none => none := rfl
  rw [hb, parseStringBody_escape]
  rfl

/-! Sanity examples. -/

example : strIncludes "abcde" "bcd" = true := by decide

example : parseConfig (serializeConfig "x") = some (some "x") := by decide

example : (testBuildProcess ⟨none, 0, "", true⟩).1 =
    [⟨"Build process", true, "✅ Build successful"⟩] := rfl

/-! ## Generic helper lemmas -/

theorem structResult_passed (present : String → Bool) (g : String) :
    (structResult present g).passed = present g := by
  unfold structResult
  split
  · simp [*]
  · simp [*]

theorem configReadResult_name (fv : Option String) (field : String) :
    (configReadResult fv field).name = "Configuration - Read" := by
  unfold configReadResult
  split <;> rfl

theorem configAggregate_name (e : String) :
    (configAggregate e).name = "Configuration handling" := rfl

theorem reporterExitCode_eq_zero_iff (results : List TestResult) :
    reporterExitCode results = 0 ↔ ∀ r ∈ results, r.passed = true := by
  constructor
  · intro h r hr
    unfold reporterExitCode at h
    split at h
    · next hlen =>
      have heq : results.filter (fun r => r.passed) = results :=
        List.Sublist.eq_of_length (List.filter_sublist results) hlen
      exact List.filter_eq_self.mp heq r hr
    · simp at h
  · intro h
    unfold reporterExitCode
    rw [if_pos (by rw [List.filter_eq_self.mpr h])]

theorem reporterExitCode_zero_or_one (results : List TestResult) :
    reporterExitCode results = 0 ∨ reporterExitCode results = 1 := by
  unfold reporterExitCode
  split
  · exact Or.inl rfl
  · exact Or.inr rfl

theorem strIncludes_append_right (p s : String) : strIncludes (p ++ s) s = true := by
  simp only [strIncludes, decide_eq_true_eq, String.data_append]
  exact ⟨p.data, [], by simp⟩

theorem distMsg_ne_buildFailMsg (s : String) :
    "❌ Dist directory not created" ≠ "❌ Build failed: " ++ s := by
  intro h
  have h2 : ("❌ Dist directory not created").data[2]?
      = ("❌ Build failed: " ++ s).data[2]? := by
    rw [h]
  rw [String.data_append, List.getElem?_append_left (by decide)] at h2
  exact absurd h2 (by decide)

theorem countP_map_structResult (pres pres' : String → Bool) (l : List String)
    (f : String) (hl : f ∈ l) (hnd : l.Nodup) (hfpass : pres f = true)
    (hffail : pres' f = false) (hother : ∀ g, g ≠ f → pres' g = pres g) :
    (l.map (structResult pres')).countP (fun r => !r.passed)
      = (l.map (structResult pres)).countP (fun r => !r.passed) + 1 := by
  induction l with
  | nil => cases hl
  | cons a l ih =>
    rw [List.map_cons, List.map_cons, List.countP_cons, List.countP_cons]
    rcases List.mem_cons.mp hl with heq | hmem
    · subst heq
      have hnotin : f ∉ l := (List.nodup_cons.mp hnd).1
      have htail : l.map (structResult pres') = l.map (structResult pres) := by
        apply List.map_congr_left
        intro g hg
        have hg' : g ≠ f := fun hgf => hnotin (hgf ▸ hg)
        unfold structResult
        rw [hother g hg']
      rw [htail, structResult_passed, structResult_passed, hfpass, hffail]
      simp
    · have ha : a ≠ f := by
        intro haf
        exact (List.nodup_cons.mp hnd).1 (haf ▸ hmem)
      have hsa : structResult pres' a = structResult pres a := by
        unfold structResult
        rw [hother a ha]
      rw [hsa, ih hmem (List.nodup_cons.mp hnd).2]
      omega

/-! ## Claim theorems -/

/-- C1: the harness exits 0 if and only if no top-level fault occurred and
every Result in the Result Log has `passed = true`; in every other case
(some Result failed, or a fault escaped to the orchestrator's catch) the
exit code is 1, and the only exit codes are 0 and 1. In the embedding the
checks return Result lists only — `runExitCode`, the model of the Reporter
(`printResults`) plus the orchestrator's catch, is the sole place the exit
code is decided. -/
theorem exitCode_zero_iff_log_all_passed (topLevelFault : Bool)
    (results : List TestResult) :
    (runExitCode topLevelFault results = 0 ↔
      topLevelFault = false ∧ ∀ r ∈ results, r.passed = true) ∧
    (runExitCode topLevelFault results = 0 ∨ runExitCode topLevelFault results = 1) := by
  cases topLevelFault
  · refine ⟨?_, ?_⟩
    · simpa [runExitCode] using reporterExitCode_eq_zero_iff results
    · simpa [runExitCode] using reporterExitCode_zero_or_one results
  · exact ⟨by simp [runExitCode], by simp [runExitCode]⟩

/-- C1 witness: a fault-free run whose single Result passed exits 0. -/
theorem exitCode_zero_iff_log_all_passed_witness :
    runExitCode false [⟨"Build process", true, "✅ Build successful"⟩] = 0 :=
  (exitCode_zero_iff_log_all_passed false _).1.mpr ⟨rfl, by simp⟩

/-- C5: when the manifest cannot be read or parsed, or parses but lacks the
`dependencies` key entirely (the first subscript on `undefined` throws
before any per-dependency result is appended), `testDependencies` produces
exactly one aggregate failing Result carrying the underlying error text —
no per-dependency and no `node_modules` Results. -/
theorem manifest_unreadable_single_aggregate (e : String) (m : Manifest) (nm : Bool)
    (hdeps : m.dependencies = none) :
    testDependencies (.fault e)
        = [⟨"Dependencies check", false, "❌ Failed to check dependencies: " ++ e⟩] ∧
    testDependencies (.ok m nm)
        = [⟨"Dependencies check", false,
            "❌ Failed to check dependencies: TypeError: Cannot read properties of undefined"⟩] := by
  refine ⟨rfl, ?_⟩
  obtain ⟨d⟩ := m
  have hd : d = none := hdeps
  subst hd
  rfl

/-- C5 witness: a manifest with no `dependencies` key yields the single
aggregate failing Result. -/
theorem manifest_unreadable_single_aggregate_witness :
    testDependencies (.ok ⟨none⟩ true)
        = [⟨"Dependencies check", false,
            "❌ Failed to check dependencies: TypeError: Cannot read properties of undefined"⟩] :=
  (manifest_unreadable_single_aggregate "x" ⟨none⟩ true rfl).2

/-- C7: the serialize/parse round trip is the identity on the credential
field for every string value, including values with quotes, newlines and
other reserved characters, so the fault-free config check always emits the
passing read/compare Result. -/
theorem configRoundTrip_identity (X : String) :
    parseConfig (serializeConfig X) = some (some X) ∧
    (testConfigurationHandling X ⟨.ok (), .ok (serializeConfig X), .ok ()⟩).results
      = [configWriteResult,
         ⟨"Configuration - Read", true, "✅ Config file read correctly"⟩,
         configCleanupResult] := by
  refine ⟨parseConfig_serializeConfig X, ?_⟩
  simp only [testConfigurationHandling]
  rw [parseConfig_serializeConfig]
  simp [configReadResult]

/-- C2 counterexample: when the read faults after a successful write, the
check's Result set is the passing write-success Result followed by the
aggregate — a partial Result set, contradicting the claim that no Result
from the check other than the aggregate appears in the log. -/
theorem configPartial_counterexample :
    (testConfigurationHandling "k" ⟨.ok (), .fault "EIO: i/o error, read", .ok ()⟩).results
      = [configWriteResult, configAggregate "EIO: i/o error, read"] ∧
    configWriteResult.passed = true ∧
    configWriteResult.name ≠ (configAggregate "EIO: i/o error, read").name :=
  ⟨rfl, rfl, by decide⟩

/-- C2 amended: a filesystem fault appends exactly one aggregate failing
Result carrying the fault text and skips the sub-results that would have
followed the faulting operation; sub-results already emitted before the fault
remain, so only a write fault yields the aggregate alone — a read fault
leaves the preceding write-success Result, a delete fault leaves the write
and read/compare Results. -/
theorem configFault_aggregate_behavior (field e data : String) (fv : Option String)
    (rd : FsOp String) (u : FsOp Unit) (hp : parseConfig data = some fv) :
    (testConfigurationHandling field ⟨.fault e, rd, u⟩).results = [configAggregate e] ∧
    (testConfigurationHandling field ⟨.ok (), .fault e, u⟩).results
        = [configWriteResult, configAggregate e] ∧
    (testConfigurationHandling field ⟨.ok (), .ok data, .fault e⟩).results
        = [configWriteResult, configReadResult fv field, configAggregate e] ∧
    (configAggregate e).passed = false ∧
    strIncludes (configAggregate e).message e = true := by
  refine ⟨rfl, rfl, ?_, rfl, ?_⟩
  · simp only [testConfigurationHandling]
    rw [hp]
  · simp only [strIncludes, configAggregate, decide_eq_true_eq, String.data_append]
    exact ⟨("❌ Configuration test failed: ").data, [], by simp⟩

/-- C2 amended witness: a delete fault leaves the write and read results in
place before the aggregate. -/
theorem configFault_aggregate_behavior_witness :
    (testConfigurationHandling "k" ⟨.ok (), .ok (serializeConfig "k"), .fault "EPERM"⟩).results
      = [configWriteResult, configReadResult (some "k") "k", configAggregate "EPERM"] :=
  (configFault_aggregate_behavior "k" "EPERM" (serializeConfig "k") (some "k")
    (.ok "") (.ok ()) (by decide)).2.2.1

/-- C3 counterexample: a fault in the read (not in the delete — the delete
oracle here succeeds) skips `fs.unlink`, so the synthetic file still exists
when the check returns, contradicting the claim that only a faulting delete
can leave the file behind. -/
theorem configFileLeft_counterexample :
    (testConfigurationHandling "k"
        ⟨.ok (), .fault "EACCES: permission denied", .ok ()⟩).fileExists = true := rfl

/-- C3 amended: when write, read and parse succeed, the file is deleted
before the check returns on both comparison outcomes (pass or fail), and a
write fault leaves no file; but a fault in the read (or parse) skips the
delete and leaves the file on disk, as does a fault in the delete itself. -/
theorem configCleanup_paths (field data e : String) (fv : Option String)
    (rd : FsOp String) (u : FsOp Unit) (hp : parseConfig data = some fv) :
    (testConfigurationHandling field ⟨.ok (), .ok data, .ok ()⟩).fileExists = false ∧
    (testConfigurationHandling field ⟨.fault e, rd, u⟩).fileExists = false ∧
    (testConfigurationHandling field ⟨.ok (), .fault e, u⟩).fileExists = true ∧
    (testConfigurationHandling field ⟨.ok (), .ok data, .fault e⟩).fileExists = true := by
  refine ⟨?_, rfl, rfl, ?_⟩
  · simp only [testConfigurationHandling]
    rw [hp]
  · simp only [testConfigurationHandling]
    rw [hp]

/-- C3 amended witness: a failing comparison (field `b` written, file holds
`a`) still ends with the file removed. -/
theorem configCleanup_paths_witness :
    (testConfigurationHandling "b" ⟨.ok (), .ok (serializeConfig "a"), .ok ()⟩).fileExists
      = false :=
  (configCleanup_paths "b" (serializeConfig "a") "E" (some "a") (.ok "") (.ok ())
    (by decide)).1

/-- C10: every Result named `Configuration - Cleanup` that the config check
appends has `passed = true` — the only `addResult` with that name passes
`true` unconditionally, and a faulting delete produces the aggregate Result
(named `Configuration handling`) instead of a failing cleanup Result. -/
theorem cleanupResult_always_passes (field : String) (fs : ConfigFs) (r : TestResult)
    (hr : r ∈ (testConfigurationHandling field fs).results)
    (hname : r.name = "Configuration - Cleanup") : r.passed = true := by
  obtain ⟨w, rd, u⟩ := fs
  cases w with
  | fault e =>
    simp [testConfigurationHandling] at hr
    subst hr
    rw [configAggregate_name] at hname
    exact absurd hname (by decide)
  | ok wu =>
    cases rd with
    | fault e =>
      simp [testConfigurationHandling] at hr
      rcases hr with h | h
      · subst h; exact absurd hname (by decide)
      · subst h; rw [configAggregate_name] at hname; exact absurd hname (by decide)
    | ok data =>
      cases hp : parseConfig data with
      | none =>
        simp [testConfigurationHandling, hp] at hr
        rcases hr with h | h
        · subst h; exact absurd hname (by decide)
        · subst h; exact absurd hname (by decide)
      | some fv =>
        cases u with
        | fault e =>
          simp [testConfigurationHandling, hp] at hr
          rcases hr with h | h | h
          · subst h; exact absurd hname (by decide)
          · subst h; rw [configReadResult_name] at hname; exact absurd hname (by decide)
          · subst h; rw [configAggregate_name] at hname; exact absurd hname (by decide)
        | ok uu =>
          simp [testConfigurationHandling, hp] at hr
          rcases hr with h | h | h
          · subst h; exact absurd hname (by decide)
          · subst h; rw [configReadResult_name] at hname; exact absurd hname (by decide)
          · subst h; rfl

/-- C10 witness: the cleanup Result of a fault-free run passes. -/
theorem cleanupResult_always_passes_witness :
    configCleanupResult.passed = true :=
  cleanupResult_always_passes "k" ⟨.ok (), .ok (serializeConfig "k"), .ok ()⟩
    configCleanupResult (by decide) rfl

/-- C6: given a spawned build subprocess that closed, the Build Runner
appends exactly one Result: exit code 0 with the artifact directory present
gives a passing Result; exit code 0 without it gives a failing Result whose
message differs from every non-zero-exit message; a non-zero exit gives a
failing Result whose message contains the captured stderr text. -/
theorem buildRunner_case_analysis (env : BuildEnv) (hspawn : env.spawnError = none) :
    (testBuildProcess env).1.length = 1 ∧
    (env.exitCode = 0 → env.distExists = true →
      (testBuildProcess env).1 = [⟨"Build process", true, "✅ Build successful"⟩]) ∧
    (env.exitCode = 0 → env.distExists = false →
      (testBuildProcess env).1
          = [⟨"Build process", false, "❌ Dist directory not created"⟩]) ∧
    (env.exitCode ≠ 0 →
      (testBuildProcess env).1
          = [⟨"Build process", false, "❌ Build failed: " ++ env.stderrData⟩] ∧
      strIncludes ("❌ Build failed: " ++ env.stderrData) env.stderrData = true) ∧
    "❌ Dist directory not created" ≠ "❌ Build failed: " ++ env.stderrData := by
  obtain ⟨sp, code, serr, dist⟩ := env
  have hsp : sp = none := hspawn
  subst hsp
  refine ⟨?_, ?_, ?_, ?_, distMsg_ne_buildFailMsg serr⟩
  · simp only [testBuildProcess]
    split
    · split <;> rfl
    · rfl
  · intro h0 hd
    have hc : code = 0 := h0
    have hdd : dist = true := hd
    subst hc; subst hdd; rfl
  · intro h0 hd
    have hc : code = 0 := h0
    have hdd : dist = false := hd
    subst hc; subst hdd; rfl
  · intro hne
    have hne' : ¬code = 0 := hne
    exact ⟨by simp [testBuildProcess, hne'], strIncludes_append_right _ _⟩

/-- C6 witness: a build closing with exit code 2 and stderr `boom` yields
the single failing Result containing the stderr text. -/
theorem buildRunner_case_analysis_witness :
    (testBuildProcess ⟨none, 2, "boom", false⟩).1
      = [⟨"Build process", false, "❌ Build failed: " ++ "boom"⟩] :=
  ((buildRunner_case_analysis ⟨none, 2, "boom", false⟩ rfl).2.2.2.1 (by decide)).1

/-- C9: the Static Schema Check appends exactly one Result named
`MIME type handling`, and it passes if and only if the source text contains
`getMimeType` or `image/jpeg` or `image/png` — a plain three-way substring
disjunction. -/
theorem mimeEvidence_iff (src : String) :
    (testToolSchema (.ok src)).filter (fun r => r.name == "MIME type handling")
        = [mimeResult src] ∧
    ((mimeResult src).passed = true ↔
      (strIncludes src "getMimeType" = true ∨ strIncludes src "image/jpeg" = true ∨
        strIncludes src "image/png" = true)) := by
  constructor
  · have hname : ∀ el, (schemaElementResult src el).name = "Tool Schema - " ++ el := by
      intro el
      unfold schemaElementResult
      split <;> rfl
    have h1 : (requiredElements.map (schemaElementResult src)).filter
        (fun r => r.name == "MIME type handling") = [] := by
      rw [List.filter_eq_nil_iff]
      intro r hrm
      rcases List.mem_map.mp hrm with ⟨el, hel, rfl⟩
      clear hrm
      rw [hname el]
      fin_cases hel <;> decide
    have h2 : List.filter (fun r => r.name == "MIME type handling") [mimeResult src]
        = [mimeResult src] := by
      simp [mimeResult]
    show (requiredElements.map (schemaElementResult src) ++ [mimeResult src]).filter
        (fun r => r.name == "MIME type handling") = [mimeResult src]
    rw [List.filter_append, h1, h2, List.nil_append]
  · unfold mimeResult hasMimeTypeLogic
    simp [Bool.or_eq_true, or_assoc]

/-- C4 counterexample: a spawn failure produces no Result at all — in
particular no `passed:false` Result — and escapes the check unhandled
(the escape flag is `true`), contradicting the claim that every fault in a
check's scope, including spawn failure, is caught and converted. -/
theorem buildSpawn_counterexample :
    testBuildProcess ⟨some "spawn npm ENOENT", 0, "", true⟩ = ([], true) := rfl

/-- C4 amended: every fault arising inside a check's scope except a spawn
failure of the build subprocess is caught at the check's boundary and
converted into a `passed:false` Result with a descriptive message — a file
access fault in the structure probe, a read/parse fault in the manifest
check, a read fault in the schema check, a filesystem fault in the config
check all become failing Results, and a build subprocess that closed never
lets a fault escape. -/
theorem checkFault_conversion (e field : String) (present : String → Bool) (f : String)
    (rd : FsOp String) (u : FsOp Unit) (env : BuildEnv)
    (hf : present f = false) (hspawn : env.spawnError = none) :
    structResult present f
        = ⟨"Project structure - " ++ f, false, "❌ " ++ f ++ " missing"⟩ ∧
    testDependencies (.fault e)
        = [⟨"Dependencies check", false, "❌ Failed to check dependencies: " ++ e⟩] ∧
    testToolSchema (.fault e)
        = [⟨"Tool Schema validation", false, "❌ Schema test failed: " ++ e⟩] ∧
    (testConfigurationHandling field ⟨.fault e, rd, u⟩).results = [configAggregate e] ∧
    (configAggregate e).passed = false ∧
    (testBuildProcess env).2 = false := by
  obtain ⟨sp, code, serr, dist⟩ := env
  have hsp : sp = none := hspawn
  subst hsp
  refine ⟨?_, rfl, rfl, rfl, rfl, ?_⟩
  · simp [structResult, hf]
  · simp only [testBuildProcess]
    split
    · split <;> rfl
    · rfl

/-- C4 amended witness: an absent file is converted into a failing
structure Result. -/
theorem checkFault_conversion_witness :
    structResult (fun _ => false) "package.json"
        = ⟨"Project structure - " ++ "package.json", false,
           "❌ " ++ "package.json" ++ " missing"⟩ :=
  (checkFault_conversion "E" "k" (fun _ => false) "package.json" (.ok "") (.ok ())
    ⟨none, 1, "err", false⟩ rfl rfl).1

/-- C8 counterexample: removing the required file `package.json` from a
healthy project makes the structure probe fail its Result, but it also
changes the Manifest Validator's Results — the manifest read now faults and
the check collapses to its single aggregate Result (one Result instead of
five) — contradicting the claim that no other check's Results are altered. -/
theorem removeRequired_counterexample :
    (testDependencies (depsInputOf (removeFile goodProject "package.json"))).length = 1 ∧
    (testDependencies (depsInputOf goodProject)).length = 5 ∧
    (structResult (removeFile goodProject "package.json").present "package.json").passed
      = false :=
  ⟨rfl, rfl, rfl⟩

/-- C8 amended: removing one required, present file flips exactly one
structure-probe Result to failing (the failing count rises by one and every
other file's Result is unchanged); the Results of the other checks are
unchanged provided the removed file is not one the other checks read —
`package.json` (read by the Manifest Validator) and `src/index.ts` (read by
the Static Schema Check) do perturb those checks; the build and config
checks take no project input at all. -/
theorem removeRequired_effect (p : Project) (f : String)
    (hmem : f ∈ requiredFiles) (hpres : p.present f = true) :
    (testProjectStructure (removeFile p f).present).countP (fun r => !r.passed)
      = (testProjectStructure p.present).countP (fun r => !r.passed) + 1 ∧
    (structResult (removeFile p f).present f).passed = false ∧
    (∀ g, g ≠ f → structResult (removeFile p f).present g = structResult p.present g) ∧
    (f ≠ "package.json" → depsInputOf (removeFile p f) = depsInputOf p) ∧
    (f ≠ "src/index.ts" → schemaInputOf (removeFile p f) = schemaInputOf p) := by
  have hrm_at : (removeFile p f).present f = false := by
    simp [removeFile]
  have hrm_other : ∀ g, g ≠ f → (removeFile p f).present g = p.present g := by
    intro g hg
    simp [removeFile, hg]
  refine ⟨?_, ?_, ?_, ?_, ?_⟩
  · exact countP_map_structResult p.present (removeFile p f).present requiredFiles f
      hmem (by decide) hpres hrm_at hrm_other
  · rw [structResult_passed, hrm_at]
  · intro g hg
    unfold structResult
    rw [hrm_other g hg]
  · intro hne
    unfold depsInputOf
    rw [hrm_other "package.json" (fun h => hne h.symm)]
    rfl
  · intro hne
    unfold schemaInputOf
    rw [hrm_other "src/index.ts" (fun h => hne h.symm)]
    rfl

/-- C8 amended witness: removing `README.md` from the healthy project
raises the structure probe's failing count by exactly one. -/
theorem removeRequired_effect_witness :
    (testProjectStructure (removeFile goodProject "README.md").present).countP
        (fun r => !r.passed)
      = (testProjectStructure goodProject.present).countP (fun r => !r.passed) + 1 :=
  (removeRequired_effect goodProject "README.md" (by decide) (by decide)).1
